import Mathlib

/-
Shallow embedding of the intrusive strong/weak pointer core of the hazel
repository (src/hazel/coreten/core/intrusive_ptr.h, together with the
CORETEN_ENFORCE failure machinery of src/hazel/coreten/macros/Macros.h).

Modelling conventions:
* Counters are C++ `size_t` values, embedded as `Nat` with arithmetic
  reduced modulo `2 ^ 64` exactly where the source performs
  `fetch_add` / `fetch_sub` on `std::atomic<size_t>`.
* A handle (`intrusive_ptr` or `weak_intrusive_ptr`) is represented by the
  raw address it stores, a `Nat`, where `0` stands for
  `NullType::singleton()` of the default null policy
  (`intrusive_target_default_null_type`, which returns `nullptr`).
* Every operation of the source dereferences at most the one target its
  own `target_` field points to, so the heap is represented by the state
  of that single pointee: a `intrusive_ptr_target` record holding the two
  embedded counters.  Operations take the handle address and the pointee
  state and return the updated handle address and pointee state.
* Two instrumentation fields record the externally visible effects of
  teardown: `releaseResourcesCount` counts invocations of the virtual
  hook `release_resources()` and `deleteCount` counts executions of
  `delete target_`.  No code path of the source reads these, they only
  log the events the specification talks about.
* Code paths that can fail a CORETEN_ENFORCE check are embedded as
  `Except CoretenErr` values carrying the diagnostic message of the
  failed check (Macros.h lines 154-159 expand CORETEN_ENFORCE to a call
  of coreten::detail::coretenCheckFail with the rendered message).
* The source declares the counter fields of `intrusive_ptr_target` as
  `__refcount` / `__weakcount` (intrusive_ptr.h lines 115-116) while the
  handle classes access them as `refcount_` / `weakcount_`
  (e.g. lines 263, 272, 279); the embedding uses the latter spelling for
  both, as the two spellings denote the same two counters.
-/

namespace HazelCoreten

/-- Modulus of C++ `size_t` arithmetic on a 64-bit platform; the two
counters of `intrusive_ptr_target` are `std::atomic<size_t>`. -/
def size_t_mod : Nat := 2 ^ 64

/-- State of one heap-allocated `intrusive_ptr_target`
(intrusive_ptr.h lines 113-188): the two embedded counters, plus two
event counters instrumenting the teardown effects (`release_resources()`
invocations and `delete target_` executions). -/
structure intrusive_ptr_target where
  refcount_ : Nat
  weakcount_ : Nat
  releaseResourcesCount : Nat
  deleteCount : Nat
deriving DecidableEq

/-- Diagnostic raised by a failed CORETEN_ENFORCE check. -/
inductive CoretenErr where
  | enforceFail (msg : String)
deriving DecidableEq

/-- Message of the failed check in intrusive_ptr::retain_
(intrusive_ptr.h lines 264-267). -/
def msg_retain : String :=
  "intrusive_ptr: Cannot increase refcount after it reached zero."

/-- Message of the failed check in weak_intrusive_ptr::retain_
(intrusive_ptr.h lines 529-532). -/
def msg_weak_retain : String :=
  "weak_intrusive_ptr: Cannot increase weakcount after it reached zero."

/-- Message of the failed check in intrusive_ptr::make
(intrusive_ptr.h lines 408-412). -/
def msg_make : String :=
  "intrusive_ptr: Newly-created target had non-zero refcounts."

/-- Message of the failed check in weak_intrusive_ptr::reclaim
(intrusive_ptr.h lines 697-701). -/
def msg_weak_reclaim : String :=
  "weak_intrusive_ptr: Can only reclaim owning pointers that were created using release."

/-- Message of the failed check in the nonowning reclaim factory
(intrusive_ptr.h lines 424-427). -/
def msg_nonowning_reclaim : String :=
  "intrusive_ptr can only reclaim pointers that are owned by someone"

/-- detail::atomic_refcount_increment (intrusive_ptr.h lines 211-213):
`refcount.fetch_add(1, acq_rel) + 1`, i.e. the post-increment value in
`size_t` arithmetic. -/
def atomic_refcount_increment (refcount : Nat) : Nat :=
  (refcount + 1) % size_t_mod

/-- detail::atomic_weakcount_increment (intrusive_ptr.h lines 217-219):
`weakcount.fetch_add(1, relaxed) + 1`. -/
def atomic_weakcount_increment (weakcount : Nat) : Nat :=
  (weakcount + 1) % size_t_mod

/-- detail::atomic_refcount_decrement (intrusive_ptr.h lines 223-225):
`refcount.fetch_sub(1, acq_rel) - 1`, i.e. the post-decrement value in
`size_t` arithmetic (wrapping at 0). -/
def atomic_refcount_decrement (refcount : Nat) : Nat :=
  (refcount + (size_t_mod - 1)) % size_t_mod

/-- detail::atomic_weakcount_decrement (intrusive_ptr.h lines 227-229):
`weakcount.fetch_sub(1, acq_rel) - 1`. -/
def atomic_weakcount_decrement (weakcount : Nat) : Nat :=
  (weakcount + (size_t_mod - 1)) % size_t_mod

/-- intrusive_ptr::retain_ (intrusive_ptr.h lines 261-269): on a
non-sentinel handle, increment the refcount and enforce that the
post-increment value is not 1 (which would mean the count was raised
from zero through the retain path). -/
def intrusive_retain_ (p : Nat) (t : intrusive_ptr_target) :
    Except CoretenErr intrusive_ptr_target :=
  if p ≠ 0 then
    let new_refcount := atomic_refcount_increment t.refcount_
    if new_refcount ≠ 1 then
      Except.ok { t with refcount_ := new_refcount }
    else
      Except.error (CoretenErr.enforceFail msg_retain)
  else
    Except.ok t

/-- intrusive_ptr copy constructor (intrusive_ptr.h lines 323-325):
`target_(rhs.target_)` followed by `retain_()`; returns the new handle
address and the updated pointee state. -/
def intrusive_copy (p : Nat) (t : intrusive_ptr_target) :
    Except CoretenErr (Nat × intrusive_ptr_target) :=
  match intrusive_retain_ p t with
  | Except.ok t1 => Except.ok (p, t1)
  | Except.error e => Except.error e

/-- intrusive_ptr::reset_ (intrusive_ptr.h lines 271-284): on a
non-sentinel handle, decrement the refcount; if it reached 0, invoke
release_resources(), then `delete target_` when the weakcount loads as 1,
otherwise decrement the weakcount and `delete target_` exactly when that
decrement reached 0 (note the short-circuit `||` of the source: when the
weakcount is 1 it is not decremented).  Finally the handle becomes the
null sentinel.  Also the body of the destructor and of reset(). -/
def intrusive_reset_ (p : Nat) (t : intrusive_ptr_target) :
    Nat × intrusive_ptr_target :=
  if p = 0 then
    (0, t)
  else
    let c := atomic_refcount_decrement t.refcount_
    let t1 := { t with refcount_ := c }
    if c = 0 then
      let t2 := { t1 with releaseResourcesCount := t1.releaseResourcesCount + 1 }
      if t2.weakcount_ = 1 then
        (0, { t2 with deleteCount := t2.deleteCount + 1 })
      else
        let w := atomic_weakcount_decrement t2.weakcount_
        let t3 := { t2 with weakcount_ := w }
        if w = 0 then
          (0, { t3 with deleteCount := t3.deleteCount + 1 })
        else
          (0, t3)
    else
      (0, t1)

/-- intrusive_ptr::use_count (intrusive_ptr.h lines 364-368): 0 for the
sentinel, otherwise an acquire load of the refcount. -/
def intrusive_use_count (p : Nat) (t : intrusive_ptr_target) : Nat :=
  if p = 0 then 0 else t.refcount_

/-- intrusive_ptr::weak_use_count (intrusive_ptr.h lines 370-374). -/
def intrusive_weak_use_count (p : Nat) (t : intrusive_ptr_target) : Nat :=
  if p = 0 then 0 else t.weakcount_

/-- intrusive_ptr::defined (intrusive_ptr.h lines 360-362):
`target_ != NullType::singleton()`. -/
def intrusive_defined (p : Nat) : Bool :=
  p != 0

/-- intrusive_ptr::release (intrusive_ptr.h lines 383-387): return the
stored address, set the handle to the sentinel, touch no counter.
Result: (returned raw address, handle afterwards, pointee state). -/
def intrusive_release (p : Nat) (t : intrusive_ptr_target) :
    Nat × Nat × intrusive_ptr_target :=
  (p, 0, t)

/-- intrusive_ptr::reclaim (intrusive_ptr.h lines 393-395): wrap the
address with the DontIncreaseRefcount constructor; no counter change and
no check.  Result: (new handle address, pointee state). -/
def intrusive_reclaim (owning_ptr : Nat) (t : intrusive_ptr_target) :
    Nat × intrusive_ptr_target :=
  (owning_ptr, t)

/-- intrusive_ptr::make (intrusive_ptr.h lines 400-418): wrap the freshly
allocated target (address `p`, constructor-produced counter state `t0`)
without increment, enforce that both observed counters are zero, then
store 1 into both counters directly.  Fresh construction yields 0/0
(intrusive_ptr.h line 162); a nonzero observation fails the check. -/
def intrusive_make (p : Nat) (t0 : intrusive_ptr_target) :
    Except CoretenErr (Nat × intrusive_ptr_target) :=
  if t0.refcount_ = 0 ∧ t0.weakcount_ = 0 then
    Except.ok (p, { t0 with refcount_ := 1, weakcount_ := 1 })
  else
    Except.error (CoretenErr.enforceFail msg_make)

/-- intrusive_ptr::unsafe_reclaim_from_nonowning (intrusive_ptr.h lines
422-432): enforce `raw_ptr == null || refcount.load() > 0`, then reclaim
(no counter change) and retain_. -/
def reclaim_from_nonowning (p : Nat) (t : intrusive_ptr_target) :
    Except CoretenErr (Nat × intrusive_ptr_target) :=
  if p = 0 ∨ 0 < t.refcount_ then
    match intrusive_retain_ (intrusive_reclaim p t).1 (intrusive_reclaim p t).2 with
    | Except.ok t1 => Except.ok (p, t1)
    | Except.error e => Except.error e
  else
    Except.error (CoretenErr.enforceFail msg_nonowning_reclaim)

/-- weak_intrusive_ptr::retain_ (intrusive_ptr.h lines 526-534): on a
non-sentinel handle, increment the weakcount and enforce that the
post-increment value is not 1. -/
def weak_retain_ (p : Nat) (t : intrusive_ptr_target) :
    Except CoretenErr intrusive_ptr_target :=
  if p ≠ 0 then
    let new_weakcount := atomic_weakcount_increment t.weakcount_
    if new_weakcount ≠ 1 then
      Except.ok { t with weakcount_ := new_weakcount }
    else
      Except.error (CoretenErr.enforceFail msg_weak_retain)
  else
    Except.ok t

/-- weak_intrusive_ptr::reset_ (intrusive_ptr.h lines 536-541): on a
non-sentinel handle, decrement the weakcount and `delete target_` exactly
when the decrement reached 0; then the handle becomes the sentinel.
Also the body of the weak destructor and of weak reset(). -/
def weak_reset_ (p : Nat) (t : intrusive_ptr_target) :
    Nat × intrusive_ptr_target :=
  if p = 0 then
    (0, t)
  else
    let w := atomic_weakcount_decrement t.weakcount_
    let t1 := { t with weakcount_ := w }
    if w = 0 then
      (0, { t1 with deleteCount := t1.deleteCount + 1 })
    else
      (0, t1)

/-- weak_intrusive_ptr constructor from an intrusive_ptr
(intrusive_ptr.h lines 549-551): `target_ = ptr.get()` then retain_. -/
def weak_from_intrusive (p : Nat) (t : intrusive_ptr_target) :
    Except CoretenErr (Nat × intrusive_ptr_target) :=
  match weak_retain_ p t with
  | Except.ok t1 => Except.ok (p, t1)
  | Except.error e => Except.error e

/-- weak_intrusive_ptr::use_count (intrusive_ptr.h lines 646-649): the
STRONG refcount, 0 for the sentinel. -/
def weak_use_count (p : Nat) (t : intrusive_ptr_target) : Nat :=
  if p = 0 then 0 else t.refcount_

/-- weak_intrusive_ptr::expired (intrusive_ptr.h lines 656-658):
`use_count() == 0`. -/
def weak_expired (p : Nat) (t : intrusive_ptr_target) : Bool :=
  weak_use_count p t == 0

/-- weak_intrusive_ptr::lock (intrusive_ptr.h lines 660-676): if expired,
return the sentinel strong handle; otherwise load the refcount and run
the compare-exchange loop that increments it while nonzero.  In the
sequential semantics no other thread interferes, so the loaded value is
`t.refcount_` (nonzero here, since the handle is non-null and not
expired) and the first compare_exchange_weak succeeds, writing
`refcount + 1` as a `size_t`. -/
def weak_lock (p : Nat) (t : intrusive_ptr_target) :
    Nat × intrusive_ptr_target :=
  if weak_expired p t then
    (0, t)
  else
    let refcount := t.refcount_
    if refcount = 0 then
      (0, t)
    else
      (p, { t with refcount_ := (refcount + 1) % size_t_mod })

/-- weak_intrusive_ptr::release (intrusive_ptr.h lines 682-686): return
the stored address, set the handle to the sentinel, touch no counter. -/
def weak_release (p : Nat) (t : intrusive_ptr_target) :
    Nat × Nat × intrusive_ptr_target :=
  (p, 0, t)

/-- weak_intrusive_ptr::reclaim (intrusive_ptr.h lines 692-703): enforce
`owning_weak_ptr == null || weakcount.load() > 1 ||
(refcount.load() == 0 && weakcount.load() > 0)`, then wrap the address
with the private constructor; no counter change. -/
def weak_reclaim (owning_weak_ptr : Nat) (t : intrusive_ptr_target) :
    Except CoretenErr (Nat × intrusive_ptr_target) :=
  if owning_weak_ptr = 0 ∨ 1 < t.weakcount_ ∨
      (t.refcount_ = 0 ∧ 0 < t.weakcount_) then
    Except.ok (owning_weak_ptr, t)
  else
    Except.error (CoretenErr.enforceFail msg_weak_reclaim)

/-- raw::intrusive_ptr::incref (intrusive_ptr.h lines 751-755):
`if (self) atomic_refcount_increment(self->refcount)`; no check on the
resulting value. -/
def raw_intrusive_incref (p : Nat) (t : intrusive_ptr_target) :
    intrusive_ptr_target :=
  if p ≠ 0 then
    { t with refcount_ := atomic_refcount_increment t.refcount_ }
  else
    t

/-- raw::intrusive_ptr::make_weak (intrusive_ptr.h lines 766-773):
reclaim the strong address (no counter change), construct a
weak_intrusive_ptr from that strong handle (weak retain), release the
strong handle and release the weak handle, returning the raw weak
address. -/
def raw_make_weak (p : Nat) (t : intrusive_ptr_target) :
    Except CoretenErr (Nat × intrusive_ptr_target) :=
  match weak_from_intrusive (intrusive_reclaim p t).1 (intrusive_reclaim p t).2 with
  | Except.ok wt =>
      Except.ok ((weak_release wt.1 wt.2).1, (weak_release wt.1 wt.2).2.2)
  | Except.error e => Except.error e

/-- Iterated weak_intrusive_ptr::reset_ on distinct live weak handles to
the same target (each holding the non-sentinel address `p`): state after
`n` successive weak drops. -/
def weakResetIter (p : Nat) : Nat → intrusive_ptr_target → intrusive_ptr_target
  | 0, t => t
  | Nat.succ k, t => weakResetIter p k (weak_reset_ p t).2

/-- Failure-delivery discipline of a failed invariant check: either the
process is terminated at the point of detection with no stack
unwinding, or an exception object is raised and propagates (catchably)
through caller frames. -/
inductive FailureDelivery where
  | abortNoUnwind
  | catchableException
deriving DecidableEq

/-- Delivery mechanism of coreten::detail::coretenCheckFail, the function
every CORETEN_ENFORCE failure calls (Macros.h lines 154-159).  Per its
contract documentation (Macros.h lines 115-135): on failure the macro
raises an exception, which converts to a Python RuntimeError when it
propagates to Python, and it does NOT unceremoniously quit the process
(unlike glog CHECK); the raised coreten::Error derives std::exception
(Macros.h line 52), hence is catchable and unwinds through caller
frames.  The destructor of intrusive_ptr_target likewise disables
-Wterminate precisely because its CORETEN_ENFORCE checks throw
(intrusive_ptr.h lines 130-144). -/
def coretenCheckFail_delivery : FailureDelivery :=
  FailureDelivery.catchableException

/-! Arithmetic helper lemmas about `size_t` counter updates. -/

/-- A `size_t` decrement of a representable positive counter is plain
subtraction by one. -/
theorem size_t_dec_eq (m : Nat) (h1 : 1 ≤ m) (h2 : m < size_t_mod) :
    (m + (size_t_mod - 1)) % size_t_mod = m - 1 := by
  unfold size_t_mod at *
  omega

theorem refcount_dec_eq (m : Nat) (h1 : 1 ≤ m) (h2 : m < size_t_mod) :
    atomic_refcount_decrement m = m - 1 := by
  unfold atomic_refcount_decrement
  exact size_t_dec_eq m h1 h2

theorem weakcount_dec_eq (m : Nat) (h1 : 1 ≤ m) (h2 : m < size_t_mod) :
    atomic_weakcount_decrement m = m - 1 := by
  unfold atomic_weakcount_decrement
  exact size_t_dec_eq m h1 h2

/-- A `size_t` increment below the modulus is plain addition of one. -/
theorem size_t_inc_eq (m : Nat) (h : m + 1 < size_t_mod) :
    (m + 1) % size_t_mod = m + 1 :=
  Nat.mod_eq_of_lt h

theorem refcount_inc_eq (m : Nat) (h : m + 1 < size_t_mod) :
    atomic_refcount_increment m = m + 1 := by
  unfold atomic_refcount_increment
  exact size_t_inc_eq m h

theorem weakcount_inc_eq (m : Nat) (h : m + 1 < size_t_mod) :
    atomic_weakcount_increment m = m + 1 := by
  unfold atomic_weakcount_increment
  exact size_t_inc_eq m h

/-! Computation lemmas for the teardown paths. -/

/-- Dropping one weak unit through a live non-sentinel weak handle:
explicit result state. -/
theorem weak_reset_eq (p : Nat) (t : intrusive_ptr_target) (hp : p ≠ 0)
    (h1 : 1 ≤ t.weakcount_) (h2 : t.weakcount_ < size_t_mod) :
    weak_reset_ p t =
      if t.weakcount_ = 1 then
        (0, { t with weakcount_ := 0, deleteCount := t.deleteCount + 1 })
      else
        (0, { t with weakcount_ := t.weakcount_ - 1 }) := by
  unfold weak_reset_
  rw [if_neg hp, weakcount_dec_eq t.weakcount_ h1 h2]
  by_cases hone : t.weakcount_ = 1
  · rw [if_pos hone, if_pos (by omega)]
    simp [hone]
  · rw [if_neg hone, if_neg (by omega)]

/-- Iterated weak drops on a target with representable weakcount `m ≥ 1`:
after `k ≤ m` drops the weakcount is `m - k`, the target has been
deleted exactly once if all `m` drops have happened and never otherwise,
and neither the hook counter nor the refcount moved. -/
theorem weakResetIter_formula (p : Nat) (hp : p ≠ 0) :
    ∀ (k m : Nat) (t : intrusive_ptr_target),
      t.weakcount_ = m → 1 ≤ m → m < size_t_mod → k ≤ m →
      (weakResetIter p k t).weakcount_ = m - k ∧
      (weakResetIter p k t).deleteCount
          = t.deleteCount + (if m ≤ k then 1 else 0) ∧
      (weakResetIter p k t).releaseResourcesCount = t.releaseResourcesCount ∧
      (weakResetIter p k t).refcount_ = t.refcount_ := by
  intro k
  induction k with
  | zero =>
      intro m t hm h1 h2 hk
      refine ⟨by simpa [weakResetIter] using by omega, ?_, rfl, rfl⟩
      have : ¬ m ≤ 0 := by omega
      simp [weakResetIter, this]
  | succ k ih =>
      intro m t hm h1 h2 hk
      have hstep : weakResetIter p (k + 1) t
          = weakResetIter p k (weak_reset_ p t).2 := rfl
      have hwr := weak_reset_eq p t hp (by omega) (by omega)
      by_cases hone : m = 1
      · have hk0 : k = 0 := by omega
        subst hk0
        rw [hstep, hwr, if_pos (by omega)]
        subst hone
        simp [weakResetIter]
      · have h2m : 2 ≤ m := by omega
        rw [hstep, hwr, if_neg (by omega)]
        have ih' := ih (m - 1)
          { t with weakcount_ := t.weakcount_ - 1 }
          (by simp; omega) (by omega) (by omega) (by omega)
        refine ⟨?_, ?_, ?_, ?_⟩
        · rw [ih'.1]; omega
        · rw [ih'.2.1]
          by_cases hc : m ≤ k + 1
          · rw [if_pos (show m - 1 ≤ k by omega), if_pos hc]
          · rw [if_neg (show ¬ m - 1 ≤ k by omega), if_neg hc]
        · exact ih'.2.2.1
        · exact ih'.2.2.2


/-- Dropping the last strong unit when no live weak observer remains
(weakcount at the phantom value 1): the hook fires and the target is
deleted immediately, without a weakcount decrement. -/
theorem intrusive_reset_last_strong_no_weak (p : Nat)
    (t : intrusive_ptr_target) (hp : p ≠ 0) (hr : t.refcount_ = 1)
    (hw : t.weakcount_ = 1) :
    intrusive_reset_ p t =
      (0, { t with refcount_ := 0, releaseResourcesCount := t.releaseResourcesCount + 1, deleteCount := t.deleteCount + 1 }) := by
  have hc : atomic_refcount_decrement t.refcount_ = 0 := by
    rw [hr]; decide
  unfold intrusive_reset_
  rw [if_neg hp]
  simp [hc, hw]

/-- Dropping the last strong unit while live weak observers remain
(weakcount at least 2): the hook fires, the weakcount is decremented,
and the target is not deleted. -/
theorem intrusive_reset_last_strong_with_weak (p : Nat)
    (t : intrusive_ptr_target) (hp : p ≠ 0) (hr : t.refcount_ = 1)
    (hw : 2 ≤ t.weakcount_) (hw2 : t.weakcount_ < size_t_mod) :
    intrusive_reset_ p t =
      (0, { t with refcount_ := 0, weakcount_ := t.weakcount_ - 1, releaseResourcesCount := t.releaseResourcesCount + 1 }) := by
  have hc : atomic_refcount_decrement t.refcount_ = 0 := by
    rw [hr]; decide
  have hd : atomic_weakcount_decrement t.weakcount_ = t.weakcount_ - 1 :=
    weakcount_dec_eq _ (by omega) hw2
  have h1 : ¬ t.weakcount_ = 1 := by omega
  have h2 : ¬ t.weakcount_ - 1 = 0 := by omega
  simp [intrusive_reset_, hp, hc, hd, h1, h2]

/-- C1: two-phase teardown.  When the last strong handle to a
non-sentinel target is dropped (refcount transitions 1 to 0 in
intrusive_ptr::reset_), release_resources() is invoked exactly once; the
target is deleted immediately exactly when no live weak observer remains
(weakcount at the phantom value 1); otherwise it is deleted exactly
once, later, by the weak_intrusive_ptr::reset_ of the last weak handle,
whose drop brings the weakcount to 0 — intermediate weak drops neither
delete nor invoke the hook again. -/
theorem C1_two_phase_teardown (p : Nat) (t : intrusive_ptr_target)
    (hp : p ≠ 0) (hr : t.refcount_ = 1)
    (hw1 : 1 ≤ t.weakcount_) (hw2 : t.weakcount_ < size_t_mod) :
    ((intrusive_reset_ p t).2.releaseResourcesCount
        = t.releaseResourcesCount + 1) ∧
    ((intrusive_reset_ p t).2.refcount_ = 0) ∧
    (t.weakcount_ = 1 →
      (intrusive_reset_ p t).2.deleteCount = t.deleteCount + 1) ∧
    (2 ≤ t.weakcount_ →
      (intrusive_reset_ p t).2.deleteCount = t.deleteCount ∧
      (intrusive_reset_ p t).2.weakcount_ = t.weakcount_ - 1 ∧
      (∀ k, k < t.weakcount_ - 1 →
        (weakResetIter p k (intrusive_reset_ p t).2).deleteCount
            = t.deleteCount ∧
        (weakResetIter p k (intrusive_reset_ p t).2).releaseResourcesCount
            = t.releaseResourcesCount + 1) ∧
      ((weakResetIter p (t.weakcount_ - 1)
          (intrusive_reset_ p t).2).weakcount_ = 0) ∧
      ((weakResetIter p (t.weakcount_ - 1)
          (intrusive_reset_ p t).2).deleteCount = t.deleteCount + 1) ∧
      ((weakResetIter p (t.weakcount_ - 1)
          (intrusive_reset_ p t).2).releaseResourcesCount
            = t.releaseResourcesCount + 1)) := by
  by_cases hone : t.weakcount_ = 1
  · rw [intrusive_reset_last_strong_no_weak p t hp hr hone]
    refine ⟨rfl, rfl, fun _ => rfl, fun h2 => absurd hone (by omega)⟩
  · have h2w : 2 ≤ t.weakcount_ := by omega
    rw [intrusive_reset_last_strong_with_weak p t hp hr h2w hw2]
    refine ⟨rfl, rfl, fun h1 => absurd h1 hone, fun _ => ?_⟩
    have hform := weakResetIter_formula p hp
    refine ⟨rfl, rfl, ?_, ?_, ?_, ?_⟩
    · intro k hk
      have h := hform k (t.weakcount_ - 1)
        { t with refcount_ := 0, weakcount_ := t.weakcount_ - 1, releaseResourcesCount := t.releaseResourcesCount + 1 }
        rfl (by omega) (by omega) (by omega)
      refine ⟨?_, h.2.2.1⟩
      rw [h.2.1, if_neg (by omega : ¬ t.weakcount_ - 1 ≤ k)]
      rfl
    · have h := hform (t.weakcount_ - 1) (t.weakcount_ - 1)
        { t with refcount_ := 0, weakcount_ := t.weakcount_ - 1, releaseResourcesCount := t.releaseResourcesCount + 1 }
        rfl (by omega) (by omega) (by omega)
      rw [h.1]; omega
    · have h := hform (t.weakcount_ - 1) (t.weakcount_ - 1)
        { t with refcount_ := 0, weakcount_ := t.weakcount_ - 1, releaseResourcesCount := t.releaseResourcesCount + 1 }
        rfl (by omega) (by omega) (by omega)
      rw [h.2.1, if_pos (le_refl _)]
    · have h := hform (t.weakcount_ - 1) (t.weakcount_ - 1)
        { t with refcount_ := 0, weakcount_ := t.weakcount_ - 1, releaseResourcesCount := t.releaseResourcesCount + 1 }
        rfl (by omega) (by omega) (by omega)
      exact h.2.2.1

/-- Witness for C1 at the concrete input p = 1,
t = (refcount 1, weakcount 2, no events yet): the strong drop fires the
hook once and does not delete; the single remaining weak drop deletes. -/
theorem C1_two_phase_teardown_witness :
    ((1 : Nat) ≠ 0 ∧
     (⟨1, 2, 0, 0⟩ : intrusive_ptr_target).refcount_ = 1 ∧
     1 ≤ (⟨1, 2, 0, 0⟩ : intrusive_ptr_target).weakcount_ ∧
     (⟨1, 2, 0, 0⟩ : intrusive_ptr_target).weakcount_ < size_t_mod) ∧
    (((intrusive_reset_ 1 ⟨1, 2, 0, 0⟩).2.releaseResourcesCount
        = (⟨1, 2, 0, 0⟩ : intrusive_ptr_target).releaseResourcesCount + 1) ∧
    ((intrusive_reset_ 1 ⟨1, 2, 0, 0⟩).2.refcount_ = 0) ∧
    ((⟨1, 2, 0, 0⟩ : intrusive_ptr_target).weakcount_ = 1 →
      (intrusive_reset_ 1 ⟨1, 2, 0, 0⟩).2.deleteCount
        = (⟨1, 2, 0, 0⟩ : intrusive_ptr_target).deleteCount + 1) ∧
    (2 ≤ (⟨1, 2, 0, 0⟩ : intrusive_ptr_target).weakcount_ →
      (intrusive_reset_ 1 ⟨1, 2, 0, 0⟩).2.deleteCount
          = (⟨1, 2, 0, 0⟩ : intrusive_ptr_target).deleteCount ∧
      (intrusive_reset_ 1 ⟨1, 2, 0, 0⟩).2.weakcount_
          = (⟨1, 2, 0, 0⟩ : intrusive_ptr_target).weakcount_ - 1 ∧
      (∀ k, k < (⟨1, 2, 0, 0⟩ : intrusive_ptr_target).weakcount_ - 1 →
        (weakResetIter 1 k (intrusive_reset_ 1 ⟨1, 2, 0, 0⟩).2).deleteCount
            = (⟨1, 2, 0, 0⟩ : intrusive_ptr_target).deleteCount ∧
        (weakResetIter 1 k
            (intrusive_reset_ 1 ⟨1, 2, 0, 0⟩).2).releaseResourcesCount
            = (⟨1, 2, 0, 0⟩ :
                intrusive_ptr_target).releaseResourcesCount + 1) ∧
      ((weakResetIter 1 ((⟨1, 2, 0, 0⟩ : intrusive_ptr_target).weakcount_ - 1)
          (intrusive_reset_ 1 ⟨1, 2, 0, 0⟩).2).weakcount_ = 0) ∧
      ((weakResetIter 1 ((⟨1, 2, 0, 0⟩ : intrusive_ptr_target).weakcount_ - 1)
          (intrusive_reset_ 1 ⟨1, 2, 0, 0⟩).2).deleteCount
          = (⟨1, 2, 0, 0⟩ : intrusive_ptr_target).deleteCount + 1) ∧
      ((weakResetIter 1 ((⟨1, 2, 0, 0⟩ : intrusive_ptr_target).weakcount_ - 1)
          (intrusive_reset_ 1 ⟨1, 2, 0, 0⟩).2).releaseResourcesCount
          = (⟨1, 2, 0, 0⟩ :
              intrusive_ptr_target).releaseResourcesCount + 1))) :=
  ⟨⟨by decide, by decide, by decide,
      by unfold size_t_mod; decide⟩,
    C1_two_phase_teardown 1 ⟨1, 2, 0, 0⟩ (by decide) (by decide) (by decide)
      (by unfold size_t_mod; decide)⟩

/-- C2: weak_intrusive_ptr::lock.  On an expired target (strong count 0,
in particular on the sentinel handle) it returns the sentinel strong
handle and changes no counter; on a target with representable strong
count n > 0 it returns a strong handle wrapping the same address and
leaves the strong count at n + 1. -/
theorem C2_lock_promotion (p : Nat) (t : intrusive_ptr_target) :
    (weak_use_count p t = 0 → weak_lock p t = (0, t)) ∧
    (p ≠ 0 → 0 < t.refcount_ → t.refcount_ + 1 < size_t_mod →
      weak_lock p t = (p, { t with refcount_ := t.refcount_ + 1 })) := by
  constructor
  · intro h
    simp [weak_lock, weak_expired, h]
  · intro hp h1 h2
    have hne : t.refcount_ ≠ 0 := by omega
    unfold weak_lock
    rw [if_neg (by simp [weak_expired, weak_use_count, hp, hne])]
    simp [hne, size_t_inc_eq t.refcount_ h2]

/-- Witness for C2: locking a dead target returns the sentinel and
leaves the state alone; locking a live target (strong count 2) returns
the same address with strong count 3. -/
theorem C2_lock_promotion_witness :
    weak_lock 1 ⟨0, 1, 1, 0⟩ = (0, ⟨0, 1, 1, 0⟩) ∧
    weak_lock 1 ⟨2, 1, 0, 0⟩ = (1, ⟨3, 1, 0, 0⟩) :=
  ⟨(C2_lock_promotion 1 ⟨0, 1, 1, 0⟩).1 (by decide),
   (C2_lock_promotion 1 ⟨2, 1, 0, 0⟩).2 (by decide) (by decide)
      (by unfold size_t_mod; decide)⟩

/-- C3: intrusive_ptr::make wraps the freshly allocated target: when the
newly constructed counters are observed at 0/0 it returns a handle to
the fresh address with both counters stored directly at exactly 1; when
either observed counter is non-zero it fails the CORETEN_ENFORCE check
instead of returning. -/
theorem C3_make_factory (p : Nat) (t0 : intrusive_ptr_target) :
    (t0.refcount_ = 0 ∧ t0.weakcount_ = 0 →
      intrusive_make p t0
        = Except.ok (p, { t0 with refcount_ := 1, weakcount_ := 1 })) ∧
    (¬ (t0.refcount_ = 0 ∧ t0.weakcount_ = 0) →
      intrusive_make p t0
        = Except.error (CoretenErr.enforceFail msg_make)) := by
  constructor
  · intro h
    simp [intrusive_make, h]
  · intro h
    simp only [intrusive_make]
    rw [if_neg h]

/-- Witness for C3: a fresh 0/0 target is wrapped with counters exactly
1/1; a target whose constructor self-registered (refcount already 1)
makes the factory fail fatally. -/
theorem C3_make_factory_witness :
    intrusive_make 1 ⟨0, 0, 0, 0⟩ = Except.ok (1, ⟨1, 1, 0, 0⟩) ∧
    intrusive_make 1 ⟨1, 1, 0, 0⟩
      = Except.error (CoretenErr.enforceFail msg_make) :=
  ⟨(C3_make_factory 1 ⟨0, 0, 0, 0⟩).1 (by decide),
   (C3_make_factory 1 ⟨1, 1, 0, 0⟩).2 (by decide)⟩

/-- C4: the copy constructor of intrusive_ptr.  Copying a sentinel
handle changes no counter and does not fail; copying a non-sentinel
handle whose target has representable strong count > 0 increments the
strong count by exactly one; the retain path fails fatally exactly when
its increment is the transition 0 to 1 (resurrection of a target whose
strong count had already reached zero). -/
theorem C4_copy_retain (p : Nat) (t : intrusive_ptr_target) :
    (p = 0 → intrusive_copy p t = Except.ok (p, t)) ∧
    (p ≠ 0 → t.refcount_ = 0 →
      intrusive_copy p t
        = Except.error (CoretenErr.enforceFail msg_retain)) ∧
    (p ≠ 0 → 0 < t.refcount_ → t.refcount_ + 1 < size_t_mod →
      intrusive_copy p t
        = Except.ok (p, { t with refcount_ := t.refcount_ + 1 })) := by
  refine ⟨?_, ?_, ?_⟩
  · intro h
    simp [intrusive_copy, intrusive_retain_, h]
  · intro hp h0
    have : atomic_refcount_increment t.refcount_ = 1 := by
      rw [h0]; unfold atomic_refcount_increment size_t_mod; decide
    simp [intrusive_copy, intrusive_retain_, hp, this]
  · intro hp h1 h2
    have hinc : atomic_refcount_increment t.refcount_ = t.refcount_ + 1 :=
      refcount_inc_eq _ h2
    have hne : t.refcount_ + 1 ≠ 1 := by omega
    simp [intrusive_copy, intrusive_retain_, hp, hinc, hne]

/-- Witness for C4: copying the sentinel succeeds with no change;
copying a dangling handle (strong count 0) fails the resurrection guard;
copying a live handle (strong count 1) yields strong count 2. -/
theorem C4_copy_retain_witness :
    intrusive_copy 0 ⟨0, 0, 0, 0⟩ = Except.ok (0, ⟨0, 0, 0, 0⟩) ∧
    intrusive_copy 1 ⟨0, 1, 1, 0⟩
      = Except.error (CoretenErr.enforceFail msg_retain) ∧
    intrusive_copy 1 ⟨1, 1, 0, 0⟩ = Except.ok (1, ⟨2, 1, 0, 0⟩) :=
  ⟨(C4_copy_retain 0 ⟨0, 0, 0, 0⟩).1 rfl,
   (C4_copy_retain 1 ⟨0, 1, 1, 0⟩).2.1 (by decide) rfl,
   (C4_copy_retain 1 ⟨1, 1, 0, 0⟩).2.2 (by decide) (by decide)
      (by unfold size_t_mod; decide)⟩

/-- C5: the release/reclaim boundary-crossing round trip.  For a strong
handle, release() hands out the stored address and leaves the handle at
the sentinel without touching any counter, and reclaim() of that address
re-adopts it without touching any counter, so the round trip returns a
handle with the same address over an unchanged target state (in
particular no hook invocation and no deletion).  The same identity holds for a
weak handle through weak release/reclaim, whose reclaim guard is
satisfied by every state in which a live weak handle can exist
(weakcount above the phantom 1, or strong count 0 with positive
weakcount). -/
theorem C5_release_reclaim_roundtrip (p : Nat) (t : intrusive_ptr_target)
    (hlive : p ≠ 0 →
      1 < t.weakcount_ ∨ (t.refcount_ = 0 ∧ 0 < t.weakcount_)) :
    (intrusive_reclaim (intrusive_release p t).1 (intrusive_release p t).2.2
        = (p, t)) ∧
    ((intrusive_release p t).2.1 = 0) ∧
    (weak_reclaim (weak_release p t).1 (weak_release p t).2.2
        = Except.ok (p, t)) ∧
    ((weak_release p t).2.1 = 0) := by
  refine ⟨rfl, rfl, ?_, rfl⟩
  by_cases hp : p = 0
  · simp [weak_release, weak_reclaim, hp]
  · have hc := hlive hp
    unfold weak_release weak_reclaim
    rw [if_pos (Or.inr hc)]

/-- Witness for C5 at p = 1 over a target with strong count 1 and
weakcount 2 (one live weak observer beside the phantom unit). -/
theorem C5_release_reclaim_roundtrip_witness :
    (intrusive_reclaim (intrusive_release 1 ⟨1, 2, 0, 0⟩).1
        (intrusive_release 1 ⟨1, 2, 0, 0⟩).2.2 = (1, ⟨1, 2, 0, 0⟩)) ∧
    ((intrusive_release 1 ⟨1, 2, 0, 0⟩).2.1 = 0) ∧
    (weak_reclaim (weak_release 1 ⟨1, 2, 0, 0⟩).1
        (weak_release 1 ⟨1, 2, 0, 0⟩).2.2 = Except.ok (1, ⟨1, 2, 0, 0⟩)) ∧
    ((weak_release 1 ⟨1, 2, 0, 0⟩).2.1 = 0) :=
  C5_release_reclaim_roundtrip 1 ⟨1, 2, 0, 0⟩ (fun _ => Or.inl (by decide))

/-- C6 counterexample: the claim states the reclaim guard fails exactly
when the weakcount is at most 1 while the strong count is non-zero.  At
the concrete non-sentinel address 1 whose target state is fully dead
(strong count 0, weakcount 0) the strong count is zero — so the claim
predicts success — yet weak_intrusive_ptr::reclaim fails its
CORETEN_ENFORCE check (the condition
`weakcount > 1 || (refcount == 0 && weakcount > 0)` is false there). -/
theorem C6_weak_reclaim_counterexample :
    weak_reclaim 1 ⟨0, 0, 0, 0⟩
      = Except.error (CoretenErr.enforceFail msg_weak_reclaim) ∧
    ¬ ((⟨0, 0, 0, 0⟩ : intrusive_ptr_target).weakcount_ ≤ 1 ∧
       (⟨0, 0, 0, 0⟩ : intrusive_ptr_target).refcount_ ≠ 0) := by
  constructor
  · rfl
  · intro h
    exact h.2 rfl

/-- C6 (amended): weak_intrusive_ptr::reclaim(p) fails fatally exactly
when p is a non-sentinel address whose weak count is at most 1 and
additionally either its strong count is non-zero or its weak count is 0;
for the sentinel, or when the weak count exceeds 1, or when the strong
count is 0 and the weak count is positive, it returns a weak handle
wrapping p without changing any counter. -/
theorem C6_weak_reclaim_guard (p : Nat) (t : intrusive_ptr_target) :
    (p ≠ 0 ∧ t.weakcount_ ≤ 1 ∧ (t.refcount_ ≠ 0 ∨ t.weakcount_ = 0) →
      weak_reclaim p t
        = Except.error (CoretenErr.enforceFail msg_weak_reclaim)) ∧
    (p = 0 ∨ 1 < t.weakcount_ ∨ (t.refcount_ = 0 ∧ 0 < t.weakcount_) →
      weak_reclaim p t = Except.ok (p, t)) := by
  constructor
  · rintro ⟨hp, hw, hr⟩
    have hcond : ¬ (p = 0 ∨ 1 < t.weakcount_ ∨
        (t.refcount_ = 0 ∧ 0 < t.weakcount_)) := by
      rintro (h | h | ⟨h1, h2⟩)
      · exact hp h
      · omega
      · rcases hr with hr3 | hr3
        · exact hr3 h1
        · omega
    unfold weak_reclaim
    rw [if_neg hcond]
  · intro h
    unfold weak_reclaim
    rw [if_pos h]

/-- Witness for the amended C6: reclaiming address 1 with strong count 1
and weakcount 1 (no released weak unit can exist) fails; reclaiming
address 1 with strong count 1 and weakcount 2 succeeds unchanged. -/
theorem C6_weak_reclaim_guard_witness :
    weak_reclaim 1 ⟨1, 1, 0, 0⟩
      = Except.error (CoretenErr.enforceFail msg_weak_reclaim) ∧
    weak_reclaim 1 ⟨1, 2, 0, 0⟩ = Except.ok (1, ⟨1, 2, 0, 0⟩) :=
  ⟨(C6_weak_reclaim_guard 1 ⟨1, 1, 0, 0⟩).1
      ⟨by decide, by decide, Or.inl (by decide)⟩,
   (C6_weak_reclaim_guard 1 ⟨1, 2, 0, 0⟩).2 (Or.inr (Or.inl (by decide)))⟩

/-- C7 counterexample: the claim states that a failed invariant check
terminates execution by an unconditional abort with no unwinding through
caller frames (not a catchable exception).  The delivery mechanism of
coretenCheckFail, per its contract documentation in the source
(Macros.h lines 115-135, coreten::Error deriving std::exception at line
52), is a raised catchable exception, not an abort. -/
theorem C7_delivery_counterexample :
    coretenCheckFail_delivery ≠ FailureDelivery.abortNoUnwind := by
  decide

/-- C7 (amended): every invariant-violation check in the core (the
retain resurrection guards of both handle kinds, the factory's
non-zero-counter check, the weak reclaim guard, and the owned-by-someone
check of the nonowning reclaim) reports failure at the point of
detection with a diagnostic message, delivered by raising a catchable
coreten::Error exception that unwinds to callers (not an unconditional
abort), while expected-empty outcomes such as lock() on an expired
target are returned as ordinary sentinel values. -/
theorem C7_invariant_violation_delivery (p : Nat)
    (t : intrusive_ptr_target) :
    (coretenCheckFail_delivery = FailureDelivery.catchableException) ∧
    (p ≠ 0 → t.refcount_ = 0 →
      intrusive_copy p t
        = Except.error (CoretenErr.enforceFail msg_retain)) ∧
    (p ≠ 0 → t.weakcount_ = 0 →
      weak_retain_ p t
        = Except.error (CoretenErr.enforceFail msg_weak_retain)) ∧
    (¬ (t.refcount_ = 0 ∧ t.weakcount_ = 0) →
      intrusive_make p t
        = Except.error (CoretenErr.enforceFail msg_make)) ∧
    (p ≠ 0 → t.weakcount_ ≤ 1 → t.refcount_ ≠ 0 →
      weak_reclaim p t
        = Except.error (CoretenErr.enforceFail msg_weak_reclaim)) ∧
    (p ≠ 0 → t.refcount_ = 0 →
      reclaim_from_nonowning p t
        = Except.error (CoretenErr.enforceFail msg_nonowning_reclaim)) ∧
    (weak_use_count p t = 0 → weak_lock p t = (0, t)) := by
  refine ⟨rfl, ?_, ?_, ?_, ?_, ?_, ?_⟩
  · intro hp h0
    have hinc : atomic_refcount_increment t.refcount_ = 1 := by
      rw [h0]; unfold atomic_refcount_increment size_t_mod; decide
    simp [intrusive_copy, intrusive_retain_, hp, hinc]
  · intro hp h0
    have hinc : atomic_weakcount_increment t.weakcount_ = 1 := by
      rw [h0]; unfold atomic_weakcount_increment size_t_mod; decide
    simp [weak_retain_, hp, hinc]
  · intro h
    unfold intrusive_make
    rw [if_neg h]
  · intro hp hw hr
    have hcond : ¬ (p = 0 ∨ 1 < t.weakcount_ ∨
        (t.refcount_ = 0 ∧ 0 < t.weakcount_)) := by
      rintro (h | h | ⟨h1, h2⟩)
      · exact hp h
      · omega
      · exact hr h1
    unfold weak_reclaim
    rw [if_neg hcond]
  · intro hp h0
    have hcond : ¬ (p = 0 ∨ 0 < t.refcount_) := by
      rintro (h | h)
      · exact hp h
      · omega
    unfold reclaim_from_nonowning
    rw [if_neg hcond]
  · intro h
    simp [weak_lock, weak_expired, h]

/-- Witness for the amended C7: each guard observed failing (as a raised
error value) at a concrete input, and lock() on an expired target
returning the sentinel. -/
theorem C7_invariant_violation_delivery_witness :
    (coretenCheckFail_delivery = FailureDelivery.catchableException) ∧
    (intrusive_copy 1 ⟨0, 1, 1, 0⟩
      = Except.error (CoretenErr.enforceFail msg_retain)) ∧
    (weak_retain_ 1 ⟨0, 0, 1, 1⟩
      = Except.error (CoretenErr.enforceFail msg_weak_retain)) ∧
    (intrusive_make 1 ⟨1, 1, 0, 0⟩
      = Except.error (CoretenErr.enforceFail msg_make)) ∧
    (weak_reclaim 1 ⟨1, 1, 0, 0⟩
      = Except.error (CoretenErr.enforceFail msg_weak_reclaim)) ∧
    (reclaim_from_nonowning 1 ⟨0, 1, 1, 0⟩
      = Except.error (CoretenErr.enforceFail msg_nonowning_reclaim)) ∧
    (weak_lock 1 ⟨0, 1, 1, 0⟩ = (0, ⟨0, 1, 1, 0⟩)) :=
  ⟨(C7_invariant_violation_delivery 0 ⟨0, 0, 0, 0⟩).1,
   (C7_invariant_violation_delivery 1 ⟨0, 1, 1, 0⟩).2.1 (by decide) rfl,
   (C7_invariant_violation_delivery 1 ⟨0, 0, 1, 1⟩).2.2.1 (by decide) rfl,
   (C7_invariant_violation_delivery 1 ⟨1, 1, 0, 0⟩).2.2.2.1 (by decide),
   (C7_invariant_violation_delivery 1 ⟨1, 1, 0, 0⟩).2.2.2.2.1
      (by decide) (by decide) (by decide),
   (C7_invariant_violation_delivery 1 ⟨0, 1, 1, 0⟩).2.2.2.2.2.1
      (by decide) rfl,
   (C7_invariant_violation_delivery 1 ⟨0, 1, 1, 0⟩).2.2.2.2.2.2
      (by decide)⟩

/-- C8: raw::intrusive_ptr::make_weak on a non-sentinel address whose
target has strong count > 0 and representable weakcount at least 1
returns the same address (now standing for a weak unit), increments the
weakcount by exactly one, and leaves the strong count unchanged. -/
theorem C8_raw_make_weak (p : Nat) (t : intrusive_ptr_target)
    (hp : p ≠ 0) (_hs : 0 < t.refcount_) (hw : 1 ≤ t.weakcount_)
    (hb : t.weakcount_ + 1 < size_t_mod) :
    raw_make_weak p t
      = Except.ok (p, { t with weakcount_ := t.weakcount_ + 1 }) := by
  have hinc : atomic_weakcount_increment t.weakcount_ = t.weakcount_ + 1 :=
    weakcount_inc_eq _ hb
  have hne : t.weakcount_ + 1 ≠ 1 := by omega
  simp [raw_make_weak, weak_from_intrusive, weak_retain_, intrusive_reclaim,
    weak_release, hp, hinc, hne]

/-- Witness for C8: make_weak at address 1 on a target with strong count
1 and weakcount 1 yields the same address with weakcount 2 and strong
count still 1. -/
theorem C8_raw_make_weak_witness :
    raw_make_weak 1 ⟨1, 1, 0, 0⟩ = Except.ok (1, ⟨1, 2, 0, 0⟩) :=
  C8_raw_make_weak 1 ⟨1, 1, 0, 0⟩ (by decide) (by decide) (by decide)
    (by unfold size_t_mod; decide)

/-- Strong reset_ always leaves the handle at the null sentinel. -/
theorem intrusive_reset_fst (p : Nat) (t : intrusive_ptr_target) :
    (intrusive_reset_ p t).1 = 0 := by
  simp only [intrusive_reset_]
  split_ifs <;> rfl

/-- Weak reset_ always leaves the handle at the null sentinel. -/
theorem weak_reset_fst (p : Nat) (t : intrusive_ptr_target) :
    (weak_reset_ p t).1 = 0 := by
  simp only [weak_reset_]
  split_ifs <;> rfl

/-- C9: reset is idempotent at the handle interface.  Strong and weak
reset_ (equally the destructors, whose bodies are these functions) leave
the handle at the null sentinel, on which defined() is false and
use_count() is 0; and reset_ on a handle already holding the sentinel
returns the state completely unchanged — no counter moves, no
release_resources() invocation, no deletion. -/
theorem C9_reset_idempotent (p : Nat) (t : intrusive_ptr_target) :
    ((intrusive_reset_ p t).1 = 0) ∧
    ((weak_reset_ p t).1 = 0) ∧
    (intrusive_use_count (intrusive_reset_ p t).1 t = 0) ∧
    (intrusive_defined (intrusive_reset_ p t).1 = false) ∧
    (weak_use_count (weak_reset_ p t).1 t = 0) ∧
    (intrusive_reset_ 0 t = (0, t)) ∧
    (weak_reset_ 0 t = (0, t)) := by
  refine ⟨intrusive_reset_fst p t, weak_reset_fst p t, ?_, ?_, ?_, ?_, ?_⟩
  · rw [intrusive_reset_fst p t]; rfl
  · rw [intrusive_reset_fst p t]; rfl
  · rw [weak_reset_fst p t]; rfl
  · unfold intrusive_reset_; rw [if_pos rfl]
  · unfold weak_reset_; rw [if_pos rfl]

/-- C10: raw::intrusive_ptr::incref.  Called with the null pointer it is
a guarded no-op returning the state untouched; on a non-null address it
increments the strong count by exactly one, and — unlike the retain_
path — applies no resurrection guard: at strong count 0 it returns
normally with strong count 1. -/
theorem C10_raw_incref (p : Nat) (t : intrusive_ptr_target) :
    (raw_intrusive_incref 0 t = t) ∧
    (p ≠ 0 → t.refcount_ + 1 < size_t_mod →
      raw_intrusive_incref p t = { t with refcount_ := t.refcount_ + 1 }) ∧
    (p ≠ 0 → t.refcount_ = 0 →
      raw_intrusive_incref p t = { t with refcount_ := 1 }) := by
  refine ⟨?_, ?_, ?_⟩
  · simp [raw_intrusive_incref]
  · intro hp hb
    simp [raw_intrusive_incref, hp, refcount_inc_eq _ hb]
  · intro hp h0
    have hinc : atomic_refcount_increment t.refcount_ = 1 := by
      rw [h0]; unfold atomic_refcount_increment size_t_mod; decide
    simp [raw_intrusive_incref, hp, hinc]

/-- Witness for C10: incref of null leaves the state untouched; incref
of address 1 raises strong count 5 to 6; incref of address 1 at strong
count 0 returns normally with strong count 1 (no guard). -/
theorem C10_raw_incref_witness :
    (raw_intrusive_incref 0 ⟨5, 1, 0, 0⟩ = ⟨5, 1, 0, 0⟩) ∧
    (raw_intrusive_incref 1 ⟨5, 1, 0, 0⟩ = ⟨6, 1, 0, 0⟩) ∧
    (raw_intrusive_incref 1 ⟨0, 1, 1, 0⟩ = ⟨1, 1, 1, 0⟩) :=
  ⟨(C10_raw_incref 0 ⟨5, 1, 0, 0⟩).1,
   (C10_raw_incref 1 ⟨5, 1, 0, 0⟩).2.1 (by decide)
      (by unfold size_t_mod; decide),
   (C10_raw_incref 1 ⟨0, 1, 1, 0⟩).2.2 (by decide) rfl⟩

end HazelCoreten
